import Mathlib

/-!
# Verification of the `test-project` calculator (math module + two CLI front-ends)

Shallow embedding of `src/lib.rs`, `src/bin/calculator.rs` and `src/main.rs`.

Modelling conventions:

* Rust `f64` values are idealized as exact rationals `ℚ`.  Every numeric
  literal occurring in the program and the spec (`0.0`, `1.5`, …) is a
  rational, and rational arithmetic keeps equality decidable, so every
  definition stays executable.
* A Rust `panic!` is modelled by `Option`/`none`: `math.divide` returns
  `Option ℚ`, with `none` standing for the unrecoverable abort.
* `process::exit(1)` inside a CLI is modelled by returning the final
  process observation (exit code, stdout, stderr) from that branch at once;
  nothing after an exit is ever modelled as executing.
* Printed lines are modelled structurally: one constructor per `println!`
  / `eprintln!` shape in the source, carrying the interpolated values.
  String rendering of numbers is not modelled; the structured line
  determines the rendered text.
* `str::parse::<f64>` is modelled as an arbitrary parameter
  `parse : String → Option ℚ`; the CLI claims hold for every such parser.
* The `u8` greet count and `usize` generate count are modelled as `Nat`
  (their parsed values); the `i as u32` cast in `main.rs` is modelled
  exactly, as `i % 2^32`.
* The `json-output` cargo feature is off by default and its
  `#[cfg(feature = ...)]` blocks are not part of the embedded program.
-/

set_option autoImplicit false

/-! ## The math module (`src/lib.rs`) -/

namespace math

/-- Source: `pub fn add(a: f64, b: f64) -> f64 { a + b }` -/
def add (a b : ℚ) : ℚ := a + b

/-- Source: `pub fn subtract(a: f64, b: f64) -> f64 { a - b }` -/
def subtract (a b : ℚ) : ℚ := a - b

/-- Source: `pub fn multiply(a: f64, b: f64) -> f64 { a * b }` -/
def multiply (a b : ℚ) : ℚ := a * b

/-- Source: `pub fn divide(a: f64, b: f64) -> f64 { if b == 0.0 { panic!(...) } a / b }`.
`none` models the `panic!("Division by zero")`. -/
def divide (a b : ℚ) : Option ℚ :=
  if b = 0 then none else some (a / b)

end math

/-! ## The minimal positional binary (`src/bin/calculator.rs`) -/

/-- One `println!` line of the calculator binary:
`println!("{} {} {} = {}", num1, operator, num2, result)`. -/
inductive CalcOut where
  | result (a : ℚ) (op : String) (b : ℚ) (r : ℚ)
  deriving DecidableEq

/-- One `eprintln!` diagnostic line of the calculator binary, by shape. -/
inductive CalcErr where
  /-- Line `Usage: {} <number1> <operator> <number2>` -/
  | usage
  /-- Line `Operators: +, -, *, /` -/
  | usageOperators
  /-- Line `Example: {} 5 + 3` -/
  | usageExample
  /-- Line `Error: '{}' is not a valid number` -/
  | invalidNumber (s : String)
  /-- Line `Error: Division by zero!` -/
  | divisionByZero
  /-- Line `Error: Unknown operator '{}'` -/
  | unknownOperator (s : String)
  /-- Line `Supported operators: +, -, *, /` -/
  | supportedOperators
  deriving DecidableEq

/-- The observable outcome of one run of the calculator process. -/
structure CalcResult where
  exitCode : Nat
  stdout : List CalcOut
  stderr : List CalcErr
  deriving DecidableEq

/-- An arm of the operator `match` in `calculator.rs`: either the computed
value, or `process::exit(1)` after the given diagnostics. -/
inductive CalcStep where
  | exit (errs : List CalcErr)
  | ok (v : ℚ)
  deriving DecidableEq

/-- The `match operator.as_str()` expression of `calculator.rs` computing
`result` (lines 32–48): inline arithmetic, with the `/` arm pre-checking
`num2 == 0.0` and the catch-all arm rejecting unknown operators. -/
def calcOpResult (operator : String) (num1 num2 : ℚ) : CalcStep :=
  if operator = "+" then .ok (num1 + num2)
  else if operator = "-" then .ok (num1 - num2)
  else if operator = "*" then .ok (num1 * num2)
  else if operator = "/" then
    if num2 = 0 then .exit [.divisionByZero]
    else .ok (num1 / num2)
  else .exit [.unknownOperator operator, .supportedOperators]

/-- Source: `fn main()` of `calculator.rs`.  `args` is the full `env::args()`
vector, program name included, so a valid invocation has four entries.
`parse` stands for `str::parse::<f64>`. -/
def runCalculator (parse : String → Option ℚ) (args : List String) : CalcResult :=
  match args with
  | [_, arg1, operator, arg3] =>
    match parse arg1 with
    | none => ⟨1, [], [.invalidNumber arg1]⟩
    | some num1 =>
      match parse arg3 with
      | none => ⟨1, [], [.invalidNumber arg3]⟩
      | some num2 =>
        match calcOpResult operator num1 num2 with
        | .exit errs => ⟨1, [], errs⟩
        | .ok r => ⟨0, [.result num1 operator num2 r], []⟩
  | _ => ⟨1, [], [.usage, .usageOperators, .usageExample]⟩

/-! ## The subcommand CLI (`src/main.rs`) -/

/-- The `MathOps` subcommand enum. -/
inductive MathOps where
  | add (a b : ℚ)
  | subtract (a b : ℚ)
  | multiply (a b : ℚ)
  | divide (a b : ℚ)
  deriving DecidableEq

/-- The `Commands` subcommand enum.  `greet`'s count is the parsed `u8`,
`generate`'s count the parsed `usize`, both as `Nat`. -/
inductive Commands where
  | greet (name : String) (count : Nat)
  | math (operation : MathOps)
  | generate (count : Nat)
  deriving DecidableEq

/-- The parsed `Cli` structure (post-`clap` view of an invocation). -/
structure Cli where
  command : Option Commands
  verbose : Bool
  deriving DecidableEq

/-- The `TestData` record of `main.rs`.  `id` is a `u32`. -/
structure TestData where
  id : Nat
  name : String
  value : ℚ
  deriving DecidableEq

/-- The record built for 1-based index `i` in the `Generate` branch:
`TestData { id: i as u32, name: format!("Item {}", i), value: (i as f64) * 1.5 }`.
The `as u32` cast truncates, hence `i % 2^32`. -/
def mkTestData (i : Nat) : TestData :=
  { id := i % 4294967296, name := "Item " ++ toString i, value := (i : ℚ) * 1.5 }

/-- The `Generate` branch's collected vector:
`(1..=count).map(|i| TestData { ... }).collect()`. -/
def generateData (count : Nat) : List TestData :=
  (List.range count).map (fun j => mkTestData (j + 1))

/-- One `println!` line of `main.rs`, by shape. -/
inductive OutLine where
  /-- Line `Running in verbose mode` -/
  | verboseMode
  /-- Line `{}. Hello, {}!` -/
  | greetNumbered (i : Nat) (name : String)
  /-- Line `Hello, {}!` -/
  | greetPlain (name : String)
  /-- Line `{} {} {} = {}` with the operator symbol -/
  | mathResult (a : ℚ) (op : String) (b : ℚ) (r : ℚ)
  /-- Line `Generated {} test items:` -/
  | generatedHeader (n : Nat)
  /-- Line `  {:?}` of one `TestData` record -/
  | item (t : TestData)
  /-- Line `Test project is running successfully!` -/
  | runningOk
  /-- Line `Use --help for available commands.` -/
  | useHelp
  deriving DecidableEq

/-- One `eprintln!` line of `main.rs`. -/
inductive ErrLine where
  /-- Line `Error: Division by zero!` -/
  | divisionByZero
  deriving DecidableEq

/-- The observable outcome of one run of the subcommand CLI process. -/
structure MainResult where
  exitCode : Nat
  stdout : List OutLine
  stderr : List ErrLine
  deriving DecidableEq

/-- The `Greet` branch's loop:
`for i in 1..=count { if count > 1 { numbered } else { plain } }`. -/
def greetLines (name : String) (count : Nat) : List OutLine :=
  (List.range count).map (fun j =>
    if count > 1 then .greetNumbered (j + 1) name else .greetPlain name)

/-- Source: `fn main()` of `main.rs`, from the parsed `Cli` on.  `none` models a
panic escaping from the math module (never reached, as proved below). -/
def runMain (cli : Cli) : Option MainResult :=
  let pre : List OutLine := if cli.verbose then [.verboseMode] else []
  match cli.command with
  | some (.greet name count) =>
    some ⟨0, pre ++ greetLines name count, []⟩
  | some (.math operation) =>
    match operation with
    | .add a b => some ⟨0, pre ++ [.mathResult a "+" b (math.add a b)], []⟩
    | .subtract a b => some ⟨0, pre ++ [.mathResult a "-" b (math.subtract a b)], []⟩
    | .multiply a b => some ⟨0, pre ++ [.mathResult a "*" b (math.multiply a b)], []⟩
    | .divide a b =>
      if b = 0 then some ⟨1, pre, [.divisionByZero]⟩
      else
        match math.divide a b with
        | none => none
        | some r => some ⟨0, pre ++ [.mathResult a "/" b r], []⟩
  | some (.generate count) =>
    let data := generateData count
    some ⟨0, pre ++ .generatedHeader data.length :: data.map .item, []⟩
  | none =>
    some ⟨0, pre ++ [.runningOk, .useHelp], []⟩

/-! ## Statement-side predicates -/

/-- A calculator invocation the spec calls valid: exactly three positional
arguments, both numbers parse, the operator is one of the four symbols,
and a `/` invocation has a nonzero second operand. -/
def calcSuccess (parse : String → Option ℚ) (args : List String) : Prop :=
  match args with
  | [_, arg1, operator, arg3] =>
    (∃ n, parse arg1 = some n) ∧ (∃ n, parse arg3 = some n) ∧
      (operator = "+" ∨ operator = "-" ∨ operator = "*" ∨
        (operator = "/" ∧ ∀ n, parse arg3 = some n → n ≠ 0))
  | _ => False

/-- The invocations of the subcommand CLI whose math-divide operand is zero. -/
def isDivideByZeroCmd (cli : Cli) : Bool :=
  match cli.command with
  | some (.math (.divide _ b)) => decide (b = 0)
  | _ => false

/-- A concrete instance of `str::parse::<f64>` restricted to the two
numerals of the spec's first end-to-end scenario; used only to instantiate
the contracts on concrete invocations. -/
def parseDemo : String → Option ℚ :=
  fun s => if s = "5" then some 5 else if s = "3" then some 3 else none

/-! ## Claims about the math module -/

/-- Claim C1: `math.divide a b` aborts fatally (returns `none`, the model of
`panic!`) if and only if `b = 0`; for every nonzero `b` it returns the
quotient `a / b`. -/
theorem divide_fatal_iff_zero (a b : ℚ) :
    (math.divide a b = none ↔ b = 0) ∧ (b ≠ 0 → math.divide a b = some (a / b)) := by
  constructor
  · unfold math.divide
    split <;> simp_all
  · intro h
    unfold math.divide
    simp [h]

/-- Witness for C1 at `a = 6`, `b = 2`. -/
theorem divide_fatal_iff_zero_witness : math.divide 6 2 = some (6 / 2) :=
  (divide_fatal_iff_zero 6 2).2 (by norm_num)

/-- Claim C2: `math.add`, `math.subtract` and `math.multiply` are total
functions (they are Lean functions `ℚ → ℚ → ℚ`, so totality and purity are
structural) returning `a + b`, `a - b` and `a * b` respectively. -/
theorem add_subtract_multiply_total (a b : ℚ) :
    math.add a b = a + b ∧ math.subtract a b = a - b ∧ math.multiply a b = a * b :=
  ⟨rfl, rfl, rfl⟩

/-- Claim C7: addition is commutative: `add a b = add b a` for all operands. -/
theorem add_commutative (a b : ℚ) : math.add a b = math.add b a := by
  unfold math.add
  exact add_comm a b

/-- Claim C8: identity and annihilator laws with constant operands:
`add a 0 = a`, `subtract a 0 = a`, `multiply a 1 = a`, `multiply a 0 = 0`. -/
theorem constant_operand_laws (a : ℚ) :
    math.add a 0 = a ∧ math.subtract a 0 = a ∧ math.multiply a 1 = a ∧
      math.multiply a 0 = 0 := by
  refine ⟨?_, ?_, ?_, ?_⟩ <;> simp [math.add, math.subtract, math.multiply]

/-- Claim C9: division inverts multiplication: for nonzero `b`,
`divide (multiply a b) b` succeeds (never hits the fatal path) and returns
exactly `a` (exact in the rational model, hence within any tolerance). -/
theorem divide_multiply_inverse (a b : ℚ) (h : b ≠ 0) :
    math.divide (math.multiply a b) b = some a ∧
      math.divide (math.multiply a b) b ≠ none := by
  have hd : math.divide (math.multiply a b) b = some a := by
    unfold math.divide math.multiply
    rw [if_neg h, mul_div_cancel_right₀ a h]
  exact ⟨hd, by simp [hd]⟩

/-- Witness for C9 at `a = 2`, `b = 3`. -/
theorem divide_multiply_inverse_witness :
    math.divide (math.multiply 2 3) 3 = some 2 ∧
      math.divide (math.multiply 2 3) 3 ≠ none :=
  divide_multiply_inverse 2 3 (by norm_num)

/-- Claim C10: the calculator binary's inline operator match coincides with
the math module on every operand pair: the `+`, `-`, `*` arms compute
`math.add`, `math.subtract`, `math.multiply`; the `/` arm succeeds with `r`
exactly when `math.divide` returns `r`, and exits with the division-by-zero
diagnostic exactly when `math.divide` would panic. -/
theorem calcOpResult_refines_math (a b : ℚ) :
    calcOpResult "+" a b = .ok (math.add a b) ∧
    calcOpResult "-" a b = .ok (math.subtract a b) ∧
    calcOpResult "*" a b = .ok (math.multiply a b) ∧
    (∀ r, calcOpResult "/" a b = .ok r ↔ math.divide a b = some r) ∧
    (calcOpResult "/" a b = .exit [.divisionByZero] ↔ math.divide a b = none) := by
  refine ⟨by simp [calcOpResult, math.add], by simp [calcOpResult, math.subtract],
    by simp [calcOpResult, math.multiply], ?_, ?_⟩ <;>
    by_cases hb : b = 0 <;>
    simp [calcOpResult, math.divide, hb]

/-! ## Claims about the subcommand CLI -/

/-- Claim C4: the subcommand CLI never panics, exits with code 1 exactly on a
math-divide invocation whose second operand is zero (printing the
division-by-zero diagnostic, and only it, to the error stream), and exits
with code 0 with an empty error stream on every other invocation. -/
theorem subcli_exit_contract (cli : Cli) :
    (runMain cli).map MainResult.exitCode =
      some (if isDivideByZeroCmd cli then 1 else 0) ∧
    (isDivideByZeroCmd cli = true →
      (runMain cli).map MainResult.stderr = some [ErrLine.divisionByZero]) ∧
    (isDivideByZeroCmd cli = false →
      (runMain cli).map MainResult.stderr = some []) := by
  obtain ⟨cmd, v⟩ := cli
  rcases cmd with _ | cmd
  · simp [runMain, isDivideByZeroCmd]
  · rcases cmd with ⟨name, count⟩ | op | count
    · simp [runMain, isDivideByZeroCmd]
    · rcases op with ⟨a, b⟩ | ⟨a, b⟩ | ⟨a, b⟩ | ⟨a, b⟩
      · simp [runMain, isDivideByZeroCmd]
      · simp [runMain, isDivideByZeroCmd]
      · simp [runMain, isDivideByZeroCmd]
      · by_cases hb : b = 0
        · simp [runMain, isDivideByZeroCmd, hb]
        · simp [runMain, isDivideByZeroCmd, math.divide, hb]
    · simp [runMain, isDivideByZeroCmd]

/-- Witness for C4: `math divide 5 0` exits through the guarded error path. -/
theorem subcli_exit_contract_witness :
    (runMain ⟨some (.math (.divide 5 0)), false⟩).map MainResult.stderr =
      some [ErrLine.divisionByZero] :=
  (subcli_exit_contract ⟨some (.math (.divide 5 0)), false⟩).2.1 (by decide)

/-- C5 counterexample: `greet` with count 0 prints nothing at all, not the
single unnumbered greeting the claim requires. -/
theorem greet_zero_count_counterexample :
    (runMain ⟨some (.greet "Alice" 0), false⟩).map MainResult.stdout = some [] ∧
    some ([] : List OutLine) ≠ some [OutLine.greetPlain "Alice"] := by
  constructor
  · rfl
  · simp

/-- Claim C5 (amended): the greet subcommand prints `c` numbered greeting
lines when `c > 1`, a single unnumbered greeting when `c = 1`, and nothing
when `c = 0`. -/
theorem greet_lines_contract (name : String) (c : Nat) (v : Bool) :
    runMain ⟨some (.greet name c), v⟩ =
      some ⟨0, (if v then [OutLine.verboseMode] else []) ++
        (if c = 0 then []
         else if c = 1 then [OutLine.greetPlain name]
         else (List.range c).map (fun j => OutLine.greetNumbered (j + 1) name)), []⟩ := by
  have hg : greetLines name c =
      (if c = 0 then []
       else if c = 1 then [OutLine.greetPlain name]
       else (List.range c).map (fun j => OutLine.greetNumbered (j + 1) name)) := by
    rcases c with _ | _ | n
    · rfl
    · rfl
    · have h1 : (1 : Nat) < n + 2 := by omega
      simp [greetLines, h1]
  simp [runMain, hg]

/-- C6 counterexample: at count `2^32` the last generated record has
identifier `0` (the `i as u32` cast truncates), not `2^32` as the 1-based
sequence claim requires. -/
theorem generate_id_truncation_counterexample :
    ((generateData 4294967296)[(4294967295 : Nat)]?).map TestData.id = some 0 ∧
    some (0 : Nat) ≠ some 4294967296 := by
  constructor
  · rw [generateData, List.getElem?_map, List.getElem?_range (by norm_num)]
    simp [mkTestData]
  · simp

/-- Claim C6 (amended): the generate subcommand produces exactly `n` records;
the record at 0-based position `k` has identifier `(k + 1) mod 2^32` (the
1-based index truncated to `u32`, which is `k + 1` itself whenever
`k + 1 < 2^32`), name `"Item (k+1)"` and value `(k + 1) * 1.5`; in
particular count 3 yields identifiers 1, 2, 3 with values 1.5, 3.0, 4.5,
and the printed header reports `n` items. -/
theorem generate_data_contract (n k : Nat) :
    (generateData n).length = n ∧
    (generateData n)[k]? =
      (if k < n then
        some ⟨(k + 1) % 4294967296, "Item " ++ toString (k + 1), ((k + 1 : ℕ) : ℚ) * 1.5⟩
       else none) ∧
    generateData 3 = [⟨1, "Item 1", 1.5⟩, ⟨2, "Item 2", 3⟩, ⟨3, "Item 3", 4.5⟩] ∧
    runMain ⟨some (.generate n), false⟩ =
      some ⟨0, OutLine.generatedHeader n :: (generateData n).map OutLine.item, []⟩ := by
  refine ⟨by simp [generateData],
    ?_, by simp [generateData, mkTestData, List.range_succ]; norm_num; exact ⟨rfl, rfl, rfl⟩, ?_⟩
  · rw [generateData, List.getElem?_map]
    by_cases h : k < n
    · rw [List.getElem?_range h]
      simp [mkTestData, h]
    · rw [List.getElem?_eq_none (by simpa using Nat.le_of_not_lt h)]
      simp [h]
  · simp [runMain, generateData]

/-! ## Claim C3: the calculator binary's I/O contract -/

/-- Helper: every `exit` arm of the operator match carries at least one
diagnostic line. -/
theorem calcOpResult_exit_ne_nil (op : String) (n1 n2 : ℚ) (errs : List CalcErr)
    (h : calcOpResult op n1 n2 = .exit errs) : errs ≠ [] := by
  unfold calcOpResult at h
  split_ifs at h <;>
    (injection h with h'; subst h'; simp)

/-- Helper: on a four-argument invocation whose numbers parse, the spec's
validity condition holds exactly when the operator match computes a value. -/
theorem calcSuccess_iff_ok (parse : String → Option ℚ) (prog arg1 op arg3 : String)
    (n1 n2 : ℚ) (hp1 : parse arg1 = some n1) (hp2 : parse arg3 = some n2) :
    calcSuccess parse [prog, arg1, op, arg3] ↔ ∃ r, calcOpResult op n1 n2 = .ok r := by
  constructor
  · rintro ⟨-, -, hop⟩
    rcases hop with rfl | rfl | rfl | ⟨rfl, hz⟩
    · exact ⟨n1 + n2, by simp [calcOpResult]⟩
    · exact ⟨n1 - n2, by simp [calcOpResult]⟩
    · exact ⟨n1 * n2, by simp [calcOpResult]⟩
    · exact ⟨n1 / n2, by simp [calcOpResult, hz n2 hp2]⟩
  · rintro ⟨r, hok⟩
    refine ⟨⟨n1, hp1⟩, ⟨n2, hp2⟩, ?_⟩
    by_cases h1 : op = "+"
    · exact .inl h1
    by_cases h2 : op = "-"
    · exact .inr (.inl h2)
    by_cases h3 : op = "*"
    · exact .inr (.inr (.inl h3))
    by_cases h4 : op = "/"
    · subst h4
      refine .inr (.inr (.inr ⟨rfl, ?_⟩))
      intro n hn
      rw [hp2] at hn
      injection hn with hn'
      subst hn'
      intro h0
      simp [calcOpResult, h1, h2, h3, h0] at hok
    · simp [calcOpResult, h1, h2, h3, h4] at hok

/-- Claim C3: the calculator binary exits 0 exactly on valid invocations
(three positional arguments, parseable numbers, known operator, nonzero
divisor for `/`); on success it prints exactly the one result line
`<a> <op> <b> = <result>` to stdout and nothing to stderr, and on any
validation failure it prints nothing to stdout, at least one diagnostic to
stderr, and exits 1. -/
theorem calculator_io_contract (parse : String → Option ℚ) (args : List String) :
    ((runCalculator parse args).exitCode = 0 ↔ calcSuccess parse args) ∧
    (∀ prog arg1 op arg3 n1 n2 r, args = [prog, arg1, op, arg3] →
      parse arg1 = some n1 → parse arg3 = some n2 → calcOpResult op n1 n2 = .ok r →
      runCalculator parse args = ⟨0, [.result n1 op n2 r], []⟩) ∧
    (¬ calcSuccess parse args →
      (runCalculator parse args).exitCode = 1 ∧
      (runCalculator parse args).stdout = [] ∧
      (runCalculator parse args).stderr ≠ []) ∧
    ((runCalculator parse args).exitCode = 0 →
      (runCalculator parse args).stderr = [] ∧
      (runCalculator parse args).stdout.length = 1) := by
  rcases args with _ | ⟨a0, args⟩
  · simp [runCalculator, calcSuccess]
  rcases args with _ | ⟨a1, args⟩
  · simp [runCalculator, calcSuccess]
  rcases args with _ | ⟨a2, args⟩
  · simp [runCalculator, calcSuccess]
  rcases args with _ | ⟨a3, args⟩
  · simp [runCalculator, calcSuccess]
  rcases args with _ | ⟨a4, args⟩
  rotate_left
  · simp [runCalculator, calcSuccess]
  cases hp1 : parse a1 with
  | none =>
    refine ⟨by simp [runCalculator, calcSuccess, hp1], ?_,
      by simp [runCalculator, calcSuccess, hp1], by simp [runCalculator, hp1]⟩
    intro prog arg1 op arg3 m1 m2 r heq hq1 hq2 hok
    simp only [List.cons.injEq, and_true] at heq
    obtain ⟨rfl, rfl, rfl, rfl⟩ := heq
    rw [hp1] at hq1
    cases hq1
  | some n1 =>
    cases hp2 : parse a3 with
    | none =>
      refine ⟨by simp [runCalculator, calcSuccess, hp1, hp2], ?_,
        by simp [runCalculator, calcSuccess, hp1, hp2], by simp [runCalculator, hp1, hp2]⟩
      intro prog arg1 op arg3 m1 m2 r heq hq1 hq2 hok
      simp only [List.cons.injEq, and_true] at heq
      obtain ⟨rfl, rfl, rfl, rfl⟩ := heq
      rw [hp2] at hq2
      cases hq2
    | some n2 =>
      have hbridge := calcSuccess_iff_ok parse a0 a1 a2 a3 n1 n2 hp1 hp2
      refine ⟨?_, ?_, ?_, ?_⟩
      · rw [hbridge]
        cases hok : calcOpResult a2 n1 n2 with
        | exit errs => simp [runCalculator, hp1, hp2, hok]
        | ok r => simp [runCalculator, hp1, hp2, hok]
      · intro prog arg1 op arg3 m1 m2 r heq hq1 hq2 hok
        simp only [List.cons.injEq, and_true] at heq
        obtain ⟨rfl, rfl, rfl, rfl⟩ := heq
        simp [runCalculator, hq1, hq2, hok]
      · intro hns
        cases hok : calcOpResult a2 n1 n2 with
        | exit errs =>
          have herr := calcOpResult_exit_ne_nil a2 n1 n2 errs hok
          simp [runCalculator, hp1, hp2, hok, herr]
        | ok r => exact absurd (hbridge.mpr ⟨r, hok⟩) hns
      · intro h0
        cases hok : calcOpResult a2 n1 n2 with
        | exit errs => simp [runCalculator, hp1, hp2, hok] at h0
        | ok r => simp [runCalculator, hp1, hp2, hok]

/-- Witness for C3: the spec's first end-to-end scenario, `5 + 3`. -/
theorem calculator_io_contract_witness :
    runCalculator parseDemo ["calc", "5", "+", "3"] =
      ⟨0, [CalcOut.result 5 "+" 3 8], []⟩ :=
  (calculator_io_contract parseDemo ["calc", "5", "+", "3"]).2.1
    "calc" "5" "+" "3" 5 3 8 rfl (by simp [parseDemo]) (by simp [parseDemo])
    (by norm_num [calcOpResult])
